import Mathlib

/-!
Verification development for the power-telemetry agent (Go).

The agent polls a hardware-status utility (`vcgencmd`), parses four textual
measurements (temperature, voltage, clock frequency, throttle bitmask) into a
structured `State`, and publishes each cycle's result to a cache.

Shallow embedding conventions:
* Go `float64` values are modelled as exact rationals (`ℚ`); decimal parsing is
  exact, abstracting from binary floating-point rounding.
* Go `time.Time` values are modelled as natural numbers (`0` is the zero value);
  `time.Duration` strings are modelled as `Option Nat` (`none` is the empty
  string zero value, `some n` a rendered positive-or-zero duration of `n` ns).
* Process execution is modelled by an environment (`ExecOutcome`) supplying the
  combined output and Go error of each `exec` call.
-/

attribute [local semireducible] Rat.mul Rat.inv Rat.add Rat.sub Rat.ofScientific

deriving instance DecidableEq for Except

/-! ## String primitives (models of the Go standard library functions used) -/

/-- Model of a byte/char-wise check that `p` is an initial segment of `s`
(Go `strings.HasPrefix`, on the character lists). -/
def listIsPre : List Char → List Char → Bool
  | [], _ => true
  | _ :: _, [] => false
  | p :: ps, c :: cs => p == c && listIsPre ps cs

/-- Model of Go `strings.HasPrefix`. -/
def goStartsWith (s p : String) : Bool := listIsPre p.data s.data

/-- Model of Go `strings.HasSuffix`. -/
def goEndsWith (s p : String) : Bool := listIsPre p.data.reverse s.data.reverse

/-- Model of Go `strings.TrimPrefix`: remove `p` from the front of `s` when
present, otherwise return `s` unchanged. -/
def goTrimPre (s p : String) : String :=
  if goStartsWith s p then ⟨s.data.drop p.data.length⟩ else s

/-- Model of Go `strings.TrimSuffix`: remove `p` from the end of `s` when
present, otherwise return `s` unchanged. -/
def goTrimSuf (s p : String) : String :=
  if goEndsWith s p then ⟨(s.data.reverse.drop p.data.length).reverse⟩ else s

/-- Model of Go `strings.TrimSpace` (restricted to ASCII whitespace, which is
all that arises in the agent's inputs). -/
def goTrimSpace (s : String) : String :=
  ⟨((s.data.dropWhile Char.isWhitespace).reverse.dropWhile Char.isWhitespace).reverse⟩

/-- Helper for the model of Go `strings.Split` with separator `"="`:
accumulator-based scan over the characters. -/
def splitEqAux : List Char → List Char → List String
  | [], acc => [⟨acc.reverse⟩]
  | c :: rest, acc =>
    if c == '=' then ⟨acc.reverse⟩ :: splitEqAux rest [] else splitEqAux rest (c :: acc)

/-- Model of Go `strings.Split(s, "=")`: split at every `'='`. -/
def splitEq (s : String) : List String := splitEqAux s.data []

/-- Model of Go `%q` formatting of a string (the escaping of special characters
inside the string is abstracted away; only the surrounding quotes are kept). -/
def goQuote (s : String) : String := "\"" ++ s ++ "\""

/-! ## Numeric parsing (models of `strconv`) -/

/-- Decimal digits to a natural number. -/
def digitsToNat (l : List Char) : Nat :=
  l.foldl (fun a c => a * 10 + (c.toNat - 48)) 0

/-- Value of one hexadecimal digit, or `none`. -/
def hexDigitVal (c : Char) : Option Nat :=
  if '0' ≤ c ∧ c ≤ '9' then some (c.toNat - 48)
  else if 'a' ≤ c ∧ c ≤ 'f' then some (c.toNat - 87)
  else if 'A' ≤ c ∧ c ≤ 'F' then some (c.toNat - 55)
  else none

/-- Exponent part of a decimal number: optional sign then one or more digits,
consuming the whole rest of the input. -/
def expPart (sgn mant : ℚ) (r : List Char) : Option ℚ :=
  let (esgn, r1) : ℤ × List Char :=
    match r with
    | '+' :: t => (1, t)
    | '-' :: t => (-1, t)
    | t => (1, t)
  let ed := r1.takeWhile Char.isDigit
  let r2 := r1.dropWhile Char.isDigit
  if ed.isEmpty || !r2.isEmpty then none
  else some (sgn * mant * (10 : ℚ) ^ (esgn * (digitsToNat ed : ℤ)))

/-- Model of Go `strconv.ParseFloat(s, 64)`, restricted to the plain decimal
syntax `[+-]digits[.digits][(e|E)[+-]digits]` (hexadecimal floats, `Inf`/`NaN`
and digit-group underscores are not modelled; none arise in the agent's
inputs). The value is exact in `ℚ`, abstracting from float64 rounding. -/
def parseFloat? (s : String) : Option ℚ :=
  let (sgn, l0) : ℚ × List Char :=
    match s.data with
    | '+' :: r => (1, r)
    | '-' :: r => (-1, r)
    | r => (1, r)
  let ip := l0.takeWhile Char.isDigit
  let l1 := l0.dropWhile Char.isDigit
  let (fp, l2) : List Char × List Char :=
    match l1 with
    | '.' :: r => (r.takeWhile Char.isDigit, r.dropWhile Char.isDigit)
    | _ => ([], l1)
  if ip.isEmpty && fp.isEmpty then none
  else
    let mant : ℚ := (digitsToNat (ip ++ fp) : ℚ) / (10 : ℚ) ^ fp.length
    match l2 with
    | [] => some (sgn * mant)
    | 'e' :: r => expPart sgn mant r
    | 'E' :: r => expPart sgn mant r
    | _ => none

/-- Model of Go `strconv.ParseUint(s, 16, 64)`: every character must be a hex
digit, the string must be non-empty, the value must fit in 64 bits; no sign and
no digit-group underscores are permitted at base 16. -/
def parseUintHex? (s : String) : Option Nat :=
  match s.data.mapM hexDigitVal with
  | none => none
  | some ds =>
    if s.data.isEmpty then none
    else
      let v := ds.foldl (fun a d => a * 16 + d) 0
      if v < 2 ^ 64 then some v else none

/-- Model of Go `math.Round`: nearest integer, rounding half away from zero. -/
def goRound (q : ℚ) : ℤ := if 0 ≤ q then ⌊q + 1 / 2⌋ else ⌈q - 1 / 2⌉

/-- Message of a `strconv.ParseFloat` failure, as wrapped by `fmt.Errorf`. -/
def floatErr (x : String) : String :=
  "strconv.ParseFloat: parsing " ++ goQuote x ++ ": invalid syntax"

/-- Message of a `strconv.ParseUint` failure, as wrapped by `fmt.Errorf`. -/
def uintErr (x : String) : String :=
  "strconv.ParseUint: parsing " ++ goQuote x ++ ": invalid syntax"

/-! ## The four parsers (from `parseTemp`, `parseVolts`, `parseClock`,
`parseThrottleBits` in the agent's source) -/

/-- `parseTemp`: expected `"temp=53.2'C"`; trims the `temp=` prefix and the
`'C` suffix (each only when present), then parses the remainder as a decimal
number. -/
def parseTemp (out : String) : Except String ℚ :=
  let o := goTrimSuf (goTrimPre out "temp=") "'C"
  match parseFloat? o with
  | some v => Except.ok v
  | none => Except.error
      ("parseTemp: out=" ++ goQuote out ++ " stripped=" ++ goQuote o ++ ": " ++ floatErr o)

/-- `parseVolts`: expected `"volt=0.8625V"`; same trim-and-parse contract as
`parseTemp`. -/
def parseVolts (out : String) : Except String ℚ :=
  let o := goTrimSuf (goTrimPre out "volt=") "V"
  match parseFloat? o with
  | some v => Except.ok v
  | none => Except.error
      ("parseVolts: out=" ++ goQuote out ++ " stripped=" ++ goQuote o ++ ": " ++ floatErr o)

/-- `parseClock`: expected `"frequency(48)=1500398464"`; splits on every `=`,
requires exactly two parts, parses the right-hand side with `ParseFloat`,
converts hertz to megahertz and rounds to one decimal with `math.Round`. -/
def parseClock (out : String) : Except String ℚ :=
  let parts := splitEq out
  match parts with
  | [_, b] =>
    match parseFloat? b with
    | none => Except.error ("parseClock: " ++ goQuote b ++ ": " ++ floatErr b)
    | some hz =>
      let mhz := hz / 1000000
      Except.ok (((goRound (mhz * 10) : ℤ) : ℚ) / 10)
  | _ => Except.error ("parseClock: unexpected format " ++ goQuote out)

/-- `parseThrottleBits`: e.g. `"throttled=0x0"` or `"throttled=0x50005"`.
Strips the optional `throttled=` prefix into `hex`, parses `hex` without its
optional `0x` prefix as a 64-bit unsigned hexadecimal integer, and on success
derives the three booleans from bits 0, 1, 2. Returns
`(hex, undervoltage, freqCapped, throttled, error)`. -/
def parseThrottleBits (out : String) : String × Bool × Bool × Bool × Option String :=
  let hex := if goStartsWith out "throttled=" then goTrimPre out "throttled=" else out
  match parseUintHex? (goTrimPre hex "0x") with
  | none =>
    (hex, false, false, false,
      some ("parseThrottleBits: " ++ goQuote out ++ ": " ++ uintErr (goTrimPre hex "0x")))
  | some val =>
    (hex, (val &&& (1 <<< 0)) != 0, (val &&& (1 <<< 1)) != 0, (val &&& (1 <<< 2)) != 0, none)

/-! ## The poll cycle (`pollOnce`) and the cache of the agent's `main` -/

/-- The outcome supplied by the environment for one external `exec` call:
the combined standard output/error text, and the Go error of the invocation
(`none` on success; `some msg` on invocation failure, non-zero exit, or
timeout, where `msg` is the underlying error text). -/
structure ExecOutcome where
  out : String
  err : Option String
  deriving DecidableEq

/-- The environment of one poll cycle: the outcome of each of the four
`vcgencmd` queries, plus the wall-clock reading `now` used for
`time.Now()` at `State` construction, and the elapsed monotonic time
`elapsed` (in nanoseconds) measured by `time.Since(start)`. -/
structure PollEnv where
  tempQ : ExecOutcome
  voltQ : ExecOutcome
  thrQ : ExecOutcome
  clkQ : ExecOutcome
  now : Nat
  elapsed : Nat
  deriving DecidableEq

/-- The agent's `State` struct (one Reading). Go zero values are the field
defaults: `0`, `""`, `false`, `none`. `LastPollLatency` models the duration
string: `none` is the empty-string zero value, `some n` a rendered duration. -/
structure State where
  Timestamp : Nat := 0
  TempC : ℚ := 0
  VoltV : ℚ := 0
  ClockArmMHz : ℚ := 0
  ThrottleHex : String := ""
  Undervoltage : Bool := false
  FreqCapped : Bool := false
  Throttled : Bool := false
  Source : String := ""
  LastPollLatency : Option Nat := none
  RawTemp : String := ""
  RawVolts : String := ""
  RawThrottle : String := ""
  RawClock : String := ""
  LastError : String := ""
  LastErrorAt : Nat := 0
  deriving DecidableEq

/-- Model of the agent's `run`: trims the combined output, and on failure
wraps the underlying error with the command line and the captured output
(`fmt.Errorf("exec failed: %s %s: %w; output: %q", ...)`). -/
def run (name args : String) (q : ExecOutcome) : String × Option String :=
  let sout := goTrimSpace q.out
  match q.err with
  | none => (sout, none)
  | some e =>
    (sout, some ("exec failed: " ++ name ++ " " ++ args ++ ": " ++ e ++ "; output: " ++ goQuote sout))

/-- The `firstErr` selection of `pollOnce`: the first non-`nil` query error in
the fixed order temperature, voltage, throttle, clock. -/
def firstQueryErr (tErr vErr thErr cErr : Option String) : Option String :=
  match tErr, vErr, thErr, cErr with
  | some e, _, _, _ => some e
  | none, some e, _, _ => some e
  | none, none, some e, _ => some e
  | none, none, none, some e => some e
  | none, none, none, none => none

/-- Model of `pollOnce`: run the four queries, short-circuit on the first
query error, otherwise parse in the order temperature, voltage, clock,
throttle, short-circuiting on the first parse error; on full success build the
fully populated `State`. Returns the `State` and the Go error. -/
def pollOnce (env : PollEnv) : State × Option String :=
  let tR := run "vcgencmd" "measure_temp" env.tempQ
  let vR := run "vcgencmd" "measure_volts" env.voltQ
  let thR := run "vcgencmd" "get_throttled" env.thrQ
  let clkR := run "vcgencmd" "measure_clock arm" env.clkQ
  match firstQueryErr tR.2 vR.2 thR.2 clkR.2 with
  | some e =>
    ({ Timestamp := env.now, Source := "vcgencmd",
       RawTemp := tR.1, RawVolts := vR.1, RawThrottle := thR.1, RawClock := clkR.1,
       LastPollLatency := some env.elapsed,
       LastError := e, LastErrorAt := env.now }, some e)
  | none =>
    match parseTemp tR.1 with
    | Except.error e => ({ RawTemp := tR.1, LastError := e, LastErrorAt := env.now }, some e)
    | Except.ok temp =>
      match parseVolts vR.1 with
      | Except.error e => ({ RawVolts := vR.1, LastError := e, LastErrorAt := env.now }, some e)
      | Except.ok volt =>
        match parseClock clkR.1 with
        | Except.error e => ({ RawClock := clkR.1, LastError := e, LastErrorAt := env.now }, some e)
        | Except.ok clockMHz =>
          match parseThrottleBits thR.1 with
          | (_, _, _, _, some e) =>
            ({ RawThrottle := thR.1, LastError := e, LastErrorAt := env.now }, some e)
          | (thHex, uv, fc, thr, none) =>
            ({ Timestamp := env.now, TempC := temp, VoltV := volt, ClockArmMHz := clockMHz,
               ThrottleHex := thHex, Undervoltage := uv, FreqCapped := fc, Throttled := thr,
               Source := "vcgencmd", LastPollLatency := some env.elapsed,
               RawTemp := tR.1, RawVolts := vR.1, RawThrottle := thR.1, RawClock := clkR.1 },
             none)

/-- The trimmed captured output of the temperature query (what `pollOnce`
calls `tOut`). -/
def rawTempOf (env : PollEnv) : String := (run "vcgencmd" "measure_temp" env.tempQ).1

/-- The trimmed captured output of the voltage query (`vOut`). -/
def rawVoltsOf (env : PollEnv) : String := (run "vcgencmd" "measure_volts" env.voltQ).1

/-- The trimmed captured output of the throttle query (`thOut`). -/
def rawThrottleOf (env : PollEnv) : String := (run "vcgencmd" "get_throttled" env.thrQ).1

/-- The trimmed captured output of the clock query (`clkOut`). -/
def rawClockOf (env : PollEnv) : String := (run "vcgencmd" "measure_clock arm" env.clkQ).1

/-- The first query error of a cycle, as selected by `pollOnce`. -/
def firstQueryErrOf (env : PollEnv) : Option String :=
  firstQueryErr (run "vcgencmd" "measure_temp" env.tempQ).2
    (run "vcgencmd" "measure_volts" env.voltQ).2
    (run "vcgencmd" "get_throttled" env.thrQ).2
    (run "vcgencmd" "measure_clock arm" env.clkQ).2

/-- All four external queries of the cycle succeeded. -/
def queriesOk (env : PollEnv) : Prop :=
  env.tempQ.err = none ∧ env.voltQ.err = none ∧ env.thrQ.err = none ∧ env.clkQ.err = none

instance (env : PollEnv) : Decidable (queriesOk env) := by
  unfold queriesOk; infer_instance

/-- An `Except` result is a success. -/
def isOkE (r : Except String ℚ) : Bool :=
  match r with
  | Except.ok _ => true
  | Except.error _ => false

/-- All four parsers succeed on the captured outputs of the cycle. -/
def parsesOk (env : PollEnv) : Prop :=
  isOkE (parseTemp (rawTempOf env)) = true ∧
  isOkE (parseVolts (rawVoltsOf env)) = true ∧
  isOkE (parseClock (rawClockOf env)) = true ∧
  (parseThrottleBits (rawThrottleOf env)).2.2.2.2 = none

instance (env : PollEnv) : Decidable (parsesOk env) := by
  unfold parsesOk; infer_instance

/-- Model of the cache updates performed by `main`: the initial synchronous
poll and every ticker-driven cycle call `c.Set(s)` with the cycle's `State`,
successful or not, overwriting the single slot. `init` is the slot's content
before the cycles in `envs` run. -/
def cacheAfter (init : State) (envs : List PollEnv) : State :=
  envs.foldl (fun _ env => (pollOnce env).1) init

lemma listIsPre_append (p r : List Char) : listIsPre p (p ++ r) = true := by
  induction p with
  | nil => rfl
  | cons c cs ih => simp [listIsPre, ih]

lemma goTrimPre_append (p x : String) : goTrimPre (p ++ x) p = x := by
  apply String.ext
  unfold goTrimPre goStartsWith
  rw [String.data_append, listIsPre_append]
  simp [List.drop_left]

lemma goTrimSuf_append (x p : String) : goTrimSuf (x ++ p) p = x := by
  apply String.ext
  unfold goTrimSuf goEndsWith
  rw [String.data_append, List.reverse_append, listIsPre_append]
  simp only [if_true]
  rw [← List.length_reverse p.data, List.drop_left, List.reverse_reverse]

lemma append_ne_empty_left (a b : String) (h : a ≠ "") : a ++ b ≠ "" := by
  intro hc
  apply h
  apply String.ext
  have hd := congrArg String.data hc
  rw [String.data_append] at hd
  have : a.data = [] := (List.append_eq_nil.mp hd).1
  simpa using this

lemma execWrap_ne (n a e o : String) :
    ("exec failed: " ++ n ++ " " ++ a ++ ": " ++ e ++ "; output: " ++ goQuote o) ≠ "" := by
  apply append_ne_empty_left
  apply append_ne_empty_left
  apply append_ne_empty_left
  apply append_ne_empty_left
  apply append_ne_empty_left
  apply append_ne_empty_left
  apply append_ne_empty_left
  decide

lemma parseTemp_error_ne (s e : String) (h : parseTemp s = Except.error e) : e ≠ "" := by
  simp only [parseTemp] at h
  rcases hp : parseFloat? (goTrimSuf (goTrimPre s "temp=") "'C") with _ | v <;>
      simp only [hp, Except.error.injEq, reduceCtorEq] at h
  subst h
  apply append_ne_empty_left
  apply append_ne_empty_left
  apply append_ne_empty_left
  apply append_ne_empty_left
  apply append_ne_empty_left
  decide

lemma parseVolts_error_ne (s e : String) (h : parseVolts s = Except.error e) : e ≠ "" := by
  simp only [parseVolts] at h
  rcases hp : parseFloat? (goTrimSuf (goTrimPre s "volt=") "V") with _ | v <;>
      simp only [hp, Except.error.injEq, reduceCtorEq] at h
  subst h
  apply append_ne_empty_left
  apply append_ne_empty_left
  apply append_ne_empty_left
  apply append_ne_empty_left
  apply append_ne_empty_left
  decide

lemma parseClock_error_ne (s e : String) (h : parseClock s = Except.error e) : e ≠ "" := by
  simp only [parseClock] at h
  rcases hs : splitEq s with _ | ⟨a, _ | ⟨b, _ | ⟨c, t⟩⟩⟩ <;> rw [hs] at h
  · simp only [Except.error.injEq] at h
    subst h
    apply append_ne_empty_left
    decide
  · simp only [Except.error.injEq] at h
    subst h
    apply append_ne_empty_left
    decide
  · rcases hp : parseFloat? b with _ | hz <;>
        simp only [hp, Except.error.injEq, reduceCtorEq] at h
    subst h
    apply append_ne_empty_left
    apply append_ne_empty_left
    apply append_ne_empty_left
    decide
  · simp only [Except.error.injEq] at h
    subst h
    apply append_ne_empty_left
    decide

lemma parseThrottleBits_error_ne (s e : String)
    (h : (parseThrottleBits s).2.2.2.2 = some e) : e ≠ "" := by
  simp only [parseThrottleBits] at h
  rcases hp : parseUintHex?
      (goTrimPre (if goStartsWith s "throttled=" then goTrimPre s "throttled=" else s) "0x")
    with _ | v <;> simp only [hp, Option.some.injEq, reduceCtorEq] at h
  subst h
  apply append_ne_empty_left
  apply append_ne_empty_left
  apply append_ne_empty_left
  decide

lemma run_snd_none_iff (name args : String) (q : ExecOutcome) :
    (run name args q).2 = none ↔ q.err = none := by
  rcases q with ⟨o, _ | e⟩ <;> simp [run]

lemma run_snd_some_ne (name args : String) (q : ExecOutcome) (e : String)
    (h : (run name args q).2 = some e) : e ≠ "" := by
  rcases q with ⟨o, _ | e0⟩ <;> simp only [run, Option.some.injEq, reduceCtorEq] at h
  subst h
  exact execWrap_ne _ _ _ _

lemma firstQueryErrOf_none_iff (env : PollEnv) :
    firstQueryErrOf env = none ↔ queriesOk env := by
  rcases env with ⟨⟨to1, _ | te⟩, ⟨vo, _ | ve⟩, ⟨tho, _ | the1⟩, ⟨co, _ | ce⟩, n, el⟩ <;>
    simp [firstQueryErrOf, firstQueryErr, run, queriesOk]

lemma firstQueryErrOf_some_ne (env : PollEnv) (e : String)
    (h : firstQueryErrOf env = some e) : e ≠ "" := by
  rcases env with ⟨⟨to1, _ | te⟩, ⟨vo, _ | ve⟩, ⟨tho, _ | the1⟩, ⟨co, _ | ce⟩, n, el⟩ <;>
      simp only [firstQueryErrOf, firstQueryErr, run, Option.some.injEq, reduceCtorEq] at h <;>
    (subst h; exact execWrap_ne _ _ _ _)

lemma pollOnce_queryErr (env : PollEnv) (e : String) (h : firstQueryErrOf env = some e) :
    pollOnce env =
      ({ Timestamp := env.now, Source := "vcgencmd",
         RawTemp := rawTempOf env, RawVolts := rawVoltsOf env,
         RawThrottle := rawThrottleOf env, RawClock := rawClockOf env,
         LastPollLatency := some env.elapsed,
         LastError := e, LastErrorAt := env.now }, some e) := by
  unfold firstQueryErrOf at h
  simp only [pollOnce]
  rw [h]
  rfl

lemma pollOnce_parseTemp_err (env : PollEnv) (e : String)
    (hq : firstQueryErrOf env = none)
    (ht : parseTemp (rawTempOf env) = Except.error e) :
    pollOnce env =
      ({ RawTemp := rawTempOf env, LastError := e, LastErrorAt := env.now }, some e) := by
  unfold firstQueryErrOf at hq
  unfold rawTempOf at ht
  simp only [pollOnce]
  rw [hq, ht]
  rfl

lemma pollOnce_parseVolts_err (env : PollEnv) (t : ℚ) (e : String)
    (hq : firstQueryErrOf env = none)
    (ht : parseTemp (rawTempOf env) = Except.ok t)
    (hv : parseVolts (rawVoltsOf env) = Except.error e) :
    pollOnce env =
      ({ RawVolts := rawVoltsOf env, LastError := e, LastErrorAt := env.now }, some e) := by
  unfold firstQueryErrOf at hq
  unfold rawTempOf at ht
  unfold rawVoltsOf at hv
  simp only [pollOnce]
  rw [hq, ht, hv]
  rfl

lemma pollOnce_parseClock_err (env : PollEnv) (t v : ℚ) (e : String)
    (hq : firstQueryErrOf env = none)
    (ht : parseTemp (rawTempOf env) = Except.ok t)
    (hv : parseVolts (rawVoltsOf env) = Except.ok v)
    (hc : parseClock (rawClockOf env) = Except.error e) :
    pollOnce env =
      ({ RawClock := rawClockOf env, LastError := e, LastErrorAt := env.now }, some e) := by
  unfold firstQueryErrOf at hq
  unfold rawTempOf at ht
  unfold rawVoltsOf at hv
  unfold rawClockOf at hc
  simp only [pollOnce]
  rw [hq, ht, hv, hc]
  rfl

lemma pollOnce_parseThrottle_err (env : PollEnv) (t v c : ℚ) (e : String)
    (hq : firstQueryErrOf env = none)
    (ht : parseTemp (rawTempOf env) = Except.ok t)
    (hv : parseVolts (rawVoltsOf env) = Except.ok v)
    (hc : parseClock (rawClockOf env) = Except.ok c)
    (hth : (parseThrottleBits (rawThrottleOf env)).2.2.2.2 = some e) :
    pollOnce env =
      ({ RawThrottle := rawThrottleOf env, LastError := e, LastErrorAt := env.now }, some e) := by
  unfold firstQueryErrOf at hq
  unfold rawTempOf at ht
  unfold rawVoltsOf at hv
  unfold rawClockOf at hc
  unfold rawThrottleOf at hth
  simp only [pollOnce]
  rw [hq, ht, hv, hc]
  rcases hp : parseThrottleBits (run "vcgencmd" "get_throttled" env.thrQ).1 with ⟨hx, uv, fc, thr, oe⟩
  rw [hp] at hth
  simp only at hth
  subst hth
  rfl

lemma pollOnce_success (env : PollEnv) (t v c : ℚ) (hx : String) (uv fc thr : Bool)
    (hq : firstQueryErrOf env = none)
    (ht : parseTemp (rawTempOf env) = Except.ok t)
    (hv : parseVolts (rawVoltsOf env) = Except.ok v)
    (hc : parseClock (rawClockOf env) = Except.ok c)
    (hth : parseThrottleBits (rawThrottleOf env) = (hx, uv, fc, thr, none)) :
    pollOnce env =
      ({ Timestamp := env.now, TempC := t, VoltV := v, ClockArmMHz := c,
         ThrottleHex := hx, Undervoltage := uv, FreqCapped := fc, Throttled := thr,
         Source := "vcgencmd", LastPollLatency := some env.elapsed,
         RawTemp := rawTempOf env, RawVolts := rawVoltsOf env,
         RawThrottle := rawThrottleOf env, RawClock := rawClockOf env }, none) := by
  unfold firstQueryErrOf at hq
  unfold rawTempOf at ht
  unfold rawVoltsOf at hv
  unfold rawClockOf at hc
  unfold rawThrottleOf at hth
  simp only [pollOnce]
  rw [hq, ht, hv, hc, hth]
  rfl

lemma pollOnce_master (env : PollEnv) :
    ((pollOnce env).2 = none ↔ (queriesOk env ∧ parsesOk env)) ∧
    ((pollOnce env).1.LastError = "" ↔ (pollOnce env).2 = none) ∧
    (∀ e, (pollOnce env).2 = some e → (pollOnce env).1.LastError = e) := by
  rcases hq : firstQueryErrOf env with _ | e0
  · have hqOk : queriesOk env := (firstQueryErrOf_none_iff env).mp hq
    rcases ht : parseTemp (rawTempOf env) with e1 | t
    · rw [pollOnce_parseTemp_err env e1 hq ht]
      have hne := parseTemp_error_ne _ _ ht
      refine ⟨?_, ?_, ?_⟩ <;> simp [parsesOk, ht, isOkE, hne]
    · rcases hv : parseVolts (rawVoltsOf env) with e2 | v
      · rw [pollOnce_parseVolts_err env t e2 hq ht hv]
        have hne := parseVolts_error_ne _ _ hv
        refine ⟨?_, ?_, ?_⟩ <;> simp [parsesOk, hv, isOkE, hne]
      · rcases hc : parseClock (rawClockOf env) with e3 | c
        · rw [pollOnce_parseClock_err env t v e3 hq ht hv hc]
          have hne := parseClock_error_ne _ _ hc
          refine ⟨?_, ?_, ?_⟩ <;> simp [parsesOk, hc, isOkE, hne]
        · rcases hth : parseThrottleBits (rawThrottleOf env) with ⟨hx, uv, fc, thr, _ | e4⟩
          · rw [pollOnce_success env t v c hx uv fc thr hq ht hv hc hth]
            refine ⟨?_, ?_, ?_⟩ <;> simp [parsesOk, ht, hv, hc, hth, isOkE, hqOk]
          · have hth2 : (parseThrottleBits (rawThrottleOf env)).2.2.2.2 = some e4 := by
              rw [hth]
            rw [pollOnce_parseThrottle_err env t v c e4 hq ht hv hc hth2]
            have hne := parseThrottleBits_error_ne _ _ hth2
            refine ⟨?_, ?_, ?_⟩ <;> simp [parsesOk, hth2, isOkE, hne]
  · rw [pollOnce_queryErr env e0 hq]
    have hne := firstQueryErrOf_some_ne env e0 hq
    have hnq : ¬ queriesOk env := by
      intro hc
      rw [(firstQueryErrOf_none_iff env).mpr hc] at hq
      exact absurd hq (by simp)
    refine ⟨?_, ?_, ?_⟩ <;> simp [hne, hnq]

lemma goTrimPre_guard (s p : String) :
    (if goStartsWith s p then goTrimPre s p else s) = goTrimPre s p := by
  unfold goTrimPre
  by_cases h : goStartsWith s p <;> simp [h]

lemma cacheAfter_eq_last (envs : List PollEnv) : ∀ (init : State) (h : envs ≠ []),
    cacheAfter init envs = (pollOnce (envs.getLast h)).1 := by
  induction envs with
  | nil => intro init h; exact absurd rfl h
  | cons a l ih =>
    intro init h
    cases l with
    | nil => rfl
    | cons b m =>
      have h2 : (b :: m) ≠ [] := by simp
      have hstep : cacheAfter init (a :: b :: m) = cacheAfter (pollOnce a).1 (b :: m) := rfl
      rw [hstep, ih (pollOnce a).1 h2, List.getLast_cons h2]

lemma pollOnce_parse_failure_cases (env : PollEnv) (e : String)
    (hq : queriesOk env) (h : (pollOnce env).2 = some e) :
    pollOnce env =
        ({ RawTemp := rawTempOf env, LastError := e, LastErrorAt := env.now }, some e) ∨
    pollOnce env =
        ({ RawVolts := rawVoltsOf env, LastError := e, LastErrorAt := env.now }, some e) ∨
    pollOnce env =
        ({ RawClock := rawClockOf env, LastError := e, LastErrorAt := env.now }, some e) ∨
    pollOnce env =
        ({ RawThrottle := rawThrottleOf env, LastError := e, LastErrorAt := env.now }, some e) := by
  have hq0 : firstQueryErrOf env = none := (firstQueryErrOf_none_iff env).mpr hq
  rcases ht : parseTemp (rawTempOf env) with e1 | t
  · have hp := pollOnce_parseTemp_err env e1 hq0 ht
    rw [hp] at h
    simp only [Option.some.injEq] at h
    subst h
    exact Or.inl hp
  · rcases hv : parseVolts (rawVoltsOf env) with e2 | v
    · have hp := pollOnce_parseVolts_err env t e2 hq0 ht hv
      rw [hp] at h
      simp only [Option.some.injEq] at h
      subst h
      exact Or.inr (Or.inl hp)
    · rcases hc : parseClock (rawClockOf env) with e3 | c
      · have hp := pollOnce_parseClock_err env t v e3 hq0 ht hv hc
        rw [hp] at h
        simp only [Option.some.injEq] at h
        subst h
        exact Or.inr (Or.inr (Or.inl hp))
      · rcases hth : parseThrottleBits (rawThrottleOf env) with ⟨hx, uv, fc, thr, _ | e4⟩
        · have hp := pollOnce_success env t v c hx uv fc thr hq0 ht hv hc hth
          rw [hp] at h
          exact absurd h (by simp)
        · have hth2 : (parseThrottleBits (rawThrottleOf env)).2.2.2.2 = some e4 := by rw [hth]
          have hp := pollOnce_parseThrottle_err env t v c e4 hq0 ht hv hc hth2
          rw [hp] at h
          simp only [Option.some.injEq] at h
          subst h
          exact Or.inr (Or.inr (Or.inr hp))


/-- Claim C2 counterexample: the input `"temp=53.2"` is missing the `'C`
suffix, yet `parseTemp` succeeds (Go `strings.TrimSuffix` is a no-op when the
suffix is absent), refuting "for every input missing the temp= prefix or the
'C suffix ... parse_temperature fails with a ParseError". -/
theorem parseTemp_missing_suffix_succeeds :
    goEndsWith "temp=53.2" "'C" = false ∧ parseTemp "temp=53.2" = Except.ok (266 / 5) := by
  constructor <;> decide

/-- Claim C2 (amended): for every valid input of the form `temp=<d>'C`,
`parseTemp` returns `<d>` exactly; and it fails with a `ParseError` precisely
when the remainder after stripping the optional `temp=` prefix and optional
`'C` suffix is not a valid decimal number (absence of the markers alone does
not cause failure). -/
theorem parseTemp_spec :
    (∀ (body : String) (q : ℚ), parseFloat? body = some q →
        parseTemp ("temp=" ++ body ++ "'C") = Except.ok q) ∧
    (∀ s : String, parseFloat? (goTrimSuf (goTrimPre s "temp=") "'C") = none →
        parseTemp s = Except.error
          ("parseTemp: out=" ++ goQuote s ++ " stripped=" ++
            goQuote (goTrimSuf (goTrimPre s "temp=") "'C") ++ ": " ++
            floatErr (goTrimSuf (goTrimPre s "temp=") "'C"))) := by
  constructor
  · intro body q h
    rw [String.append_assoc]
    simp only [parseTemp, goTrimPre_append, goTrimSuf_append, h]
  · intro s h
    simp only [parseTemp, h]

/-- Witness for `parseTemp_spec` at concrete inputs. -/
theorem parseTemp_spec_witness :
    parseTemp ("temp=" ++ "53.2" ++ "'C") = Except.ok (266 / 5) ∧
    parseTemp "temp=abc" = Except.error
      ("parseTemp: out=" ++ goQuote "temp=abc" ++ " stripped=" ++
        goQuote (goTrimSuf (goTrimPre "temp=abc" "temp=") "'C") ++ ": " ++
        floatErr (goTrimSuf (goTrimPre "temp=abc" "temp=") "'C")) :=
  ⟨parseTemp_spec.1 "53.2" (266 / 5) (by decide), parseTemp_spec.2 "temp=abc" (by decide)⟩

/-- Claim C3 counterexample: `"frequency(48)=1.5e9"` has a right-hand side
that is not a valid integer (it contains `.` and `e`), yet `parseClock`
succeeds (the code parses the right-hand side with `strconv.ParseFloat`, not
an integer parser), refuting "fails if ... the right-hand side is not a valid
integer". -/
theorem parseClock_float_rhs_succeeds :
    ("1.5e9".data.all Char.isDigit = false) ∧
    parseClock "frequency(48)=1.5e9" = Except.ok 1500 := by
  constructor <;> decide

/-- Claim C3 (amended): `parseClock` splits its input on `=`, fails unless
there is exactly one separator, parses the right-hand side as a decimal
number (`ParseFloat`, so non-integer numbers are accepted), and otherwise
converts hertz to megahertz rounded to one decimal place with
round-half-away-from-zero (`goRound` models `math.Round`) at the tenths
digit; `parseClock "frequency(48)=1500398464"` returns `1500.4`. -/
theorem parseClock_spec :
    (∀ (s a b : String) (hz : ℚ), splitEq s = [a, b] → parseFloat? b = some hz →
        parseClock s = Except.ok (((goRound (hz / 1000000 * 10) : ℤ) : ℚ) / 10)) ∧
    (∀ s : String, (splitEq s).length ≠ 2 →
        parseClock s = Except.error ("parseClock: unexpected format " ++ goQuote s)) ∧
    (∀ (s a b : String), splitEq s = [a, b] → parseFloat? b = none →
        parseClock s = Except.error ("parseClock: " ++ goQuote b ++ ": " ++ floatErr b)) ∧
    parseClock "frequency(48)=1500398464" = Except.ok (15004 / 10) := by
  refine ⟨?_, ?_, ?_, by decide⟩
  · intro s a b hz hs hp
    simp only [parseClock, hs, hp]
  · intro s hlen
    rcases hs : splitEq s with _ | ⟨a, _ | ⟨b, _ | ⟨c, t⟩⟩⟩ <;> rw [hs] at hlen <;>
      simp only [parseClock, hs] <;> simp at hlen
  · intro s a b hs hp
    simp only [parseClock, hs, hp]

/-- Witness for `parseClock_spec` at concrete inputs. -/
theorem parseClock_spec_witness :
    parseClock "frequency(48)=1500398464" =
      Except.ok (((goRound ((1500398464 : ℚ) / 1000000 * 10) : ℤ) : ℚ) / 10) ∧
    parseClock "noequals" = Except.error ("parseClock: unexpected format " ++ goQuote "noequals") :=
  ⟨parseClock_spec.1 "frequency(48)=1500398464" "frequency(48)" "1500398464" 1500398464
      (by decide) (by decide),
    parseClock_spec.2.1 "noequals" (by decide)⟩

/-- Claim C4 (confirmed): `parseThrottleBits` strips an optional `throttled=`
prefix and an optional `0x` prefix, parses the remainder as a 64-bit unsigned
hexadecimal integer (failing if that parse fails), derives `undervoltage`,
`freq_capped`, `throttled` from bits 0, 1, 2 of the value, and preserves the
hex string (after the `throttled=` strip); `"throttled=0x50005"` yields
`(true, false, true)` and `"throttled=0x0"` yields all three `false`. -/
theorem parseThrottleBits_spec :
    (∀ (s : String) (v : Nat),
        parseUintHex? (goTrimPre (goTrimPre s "throttled=") "0x") = some v →
        parseThrottleBits s =
          (goTrimPre s "throttled=", (v &&& (1 <<< 0)) != 0, (v &&& (1 <<< 1)) != 0,
            (v &&& (1 <<< 2)) != 0, none)) ∧
    (∀ s : String,
        parseUintHex? (goTrimPre (goTrimPre s "throttled=") "0x") = none →
        parseThrottleBits s =
          (goTrimPre s "throttled=", false, false, false,
            some ("parseThrottleBits: " ++ goQuote s ++ ": " ++
              uintErr (goTrimPre (goTrimPre s "throttled=") "0x")))) ∧
    parseThrottleBits "throttled=0x50005" = ("0x50005", true, false, true, none) ∧
    parseThrottleBits "throttled=0x0" = ("0x0", false, false, false, none) := by
  refine ⟨?_, ?_, by decide, by decide⟩
  · intro s v h
    simp only [parseThrottleBits, goTrimPre_guard, h]
  · intro s h
    simp only [parseThrottleBits, goTrimPre_guard, h]

/-- Witness for `parseThrottleBits_spec` at concrete inputs. -/
theorem parseThrottleBits_spec_witness :
    parseThrottleBits "throttled=0x50005" =
      (goTrimPre "throttled=0x50005" "throttled=", (327685 &&& (1 <<< 0)) != 0,
        (327685 &&& (1 <<< 1)) != 0, (327685 &&& (1 <<< 2)) != 0, none) ∧
    parseThrottleBits "zz" =
      (goTrimPre "zz" "throttled=", false, false, false,
        some ("parseThrottleBits: " ++ goQuote "zz" ++ ": " ++
          uintErr (goTrimPre (goTrimPre "zz" "throttled=") "0x"))) :=
  ⟨parseThrottleBits_spec.1 "throttled=0x50005" 327685 (by decide),
    parseThrottleBits_spec.2.1 "zz" (by decide)⟩

/-- Claim C1 (confirmed): every Reading produced by `pollOnce` either has all
four numeric/boolean measurement fields validly populated (equal to the
corresponding parse results) with `LastError` empty, or has `LastError`
non-empty; `LastError` is empty iff all queries and all parses succeeded, and
in that case `LastPollLatency` carries the cycle's elapsed time, positive
whenever the monotonic clock advanced during the cycle (`0 < env.elapsed`). -/
theorem pollOnce_reading_dichotomy (env : PollEnv) (hlat : 0 < env.elapsed) :
    (((pollOnce env).1.LastError = "" ∧ queriesOk env ∧ parsesOk env ∧
        parseTemp (rawTempOf env) = Except.ok (pollOnce env).1.TempC ∧
        parseVolts (rawVoltsOf env) = Except.ok (pollOnce env).1.VoltV ∧
        parseClock (rawClockOf env) = Except.ok (pollOnce env).1.ClockArmMHz ∧
        parseThrottleBits (rawThrottleOf env) =
          ((pollOnce env).1.ThrottleHex, (pollOnce env).1.Undervoltage,
            (pollOnce env).1.FreqCapped, (pollOnce env).1.Throttled, none) ∧
        (pollOnce env).1.LastPollLatency = some env.elapsed) ∨
      (pollOnce env).1.LastError ≠ "") ∧
    ((pollOnce env).1.LastError = "" ↔ (queriesOk env ∧ parsesOk env)) ∧
    ((pollOnce env).1.LastError = "" →
      ∃ l, (pollOnce env).1.LastPollLatency = some l ∧ 0 < l) := by
  obtain ⟨m1, m2, m3⟩ := pollOnce_master env
  by_cases hE : (pollOnce env).1.LastError = ""
  · have hn : (pollOnce env).2 = none := m2.mp hE
    obtain ⟨hq, hp⟩ := m1.mp hn
    have hq0 : firstQueryErrOf env = none := (firstQueryErrOf_none_iff env).mpr hq
    obtain ⟨p1, p2, p3, p4⟩ := hp
    rcases ht : parseTemp (rawTempOf env) with e1 | t
    · rw [ht] at p1; exact absurd p1 (by simp [isOkE])
    rcases hv : parseVolts (rawVoltsOf env) with e2 | v
    · rw [hv] at p2; exact absurd p2 (by simp [isOkE])
    rcases hc : parseClock (rawClockOf env) with e3 | c
    · rw [hc] at p3; exact absurd p3 (by simp [isOkE])
    rcases hth : parseThrottleBits (rawThrottleOf env) with ⟨hx, uv, fc, thr, oe⟩
    rcases oe with _ | e4
    swap
    · rw [hth] at p4; exact absurd p4 (by simp)
    have hs := pollOnce_success env t v c hx uv fc thr hq0 ht hv hc hth
    rw [hs]
    exact ⟨Or.inl ⟨rfl, hq, ⟨p1, p2, p3, p4⟩, rfl, rfl, rfl, rfl, rfl⟩,
      ⟨fun _ => ⟨hq, p1, p2, p3, p4⟩, fun _ => rfl⟩,
      fun _ => ⟨env.elapsed, rfl, hlat⟩⟩
  · refine ⟨Or.inr hE, ⟨fun hc => absurd hc hE, fun hqp => absurd (m2.mpr (m1.mpr hqp)) hE⟩,
      fun hc => absurd hc hE⟩

/-- Witness for `pollOnce_reading_dichotomy`: a fully successful cycle with
positive elapsed time. -/
theorem pollOnce_reading_dichotomy_witness :
    (pollOnce ⟨⟨"temp=53.2'C", none⟩, ⟨"volt=0.8625V", none⟩, ⟨"throttled=0x50005", none⟩,
        ⟨"frequency(48)=1500398464", none⟩, 7, 3⟩).1.LastError = "" ↔
      (queriesOk ⟨⟨"temp=53.2'C", none⟩, ⟨"volt=0.8625V", none⟩, ⟨"throttled=0x50005", none⟩,
          ⟨"frequency(48)=1500398464", none⟩, 7, 3⟩ ∧
        parsesOk ⟨⟨"temp=53.2'C", none⟩, ⟨"volt=0.8625V", none⟩, ⟨"throttled=0x50005", none⟩,
          ⟨"frequency(48)=1500398464", none⟩, 7, 3⟩) :=
  (pollOnce_reading_dichotomy
    ⟨⟨"temp=53.2'C", none⟩, ⟨"volt=0.8625V", none⟩, ⟨"throttled=0x50005", none⟩,
      ⟨"frequency(48)=1500398464", none⟩, 7, 3⟩ (by decide)).2.1

/-- Claim C5 (confirmed): when any query fails, the cycle's Reading carries
as `LastError` the first failure in the fixed check order temperature,
voltage, throttle, clock (the last conjunct makes the order explicit), with
all raw fields populated from the captured output, `Source` set, and — by the
record equality, whose remaining fields are the Go zero values — numeric
fields zero and no throttle booleans derived. -/
theorem pollOnce_query_failure_spec :
    (∀ (env : PollEnv) (e : String), firstQueryErrOf env = some e →
        (pollOnce env).1 =
          { Timestamp := env.now, Source := "vcgencmd",
            RawTemp := rawTempOf env, RawVolts := rawVoltsOf env,
            RawThrottle := rawThrottleOf env, RawClock := rawClockOf env,
            LastPollLatency := some env.elapsed, LastError := e, LastErrorAt := env.now }) ∧
    (∀ env : PollEnv, firstQueryErrOf env = none ↔ queriesOk env) ∧
    (∀ (v th c : Option String) (e : String),
        firstQueryErr (some e) v th c = some e ∧
        firstQueryErr none (some e) th c = some e ∧
        firstQueryErr none none (some e) c = some e ∧
        firstQueryErr none none none (some e) = some e) := by
  refine ⟨?_, firstQueryErrOf_none_iff, ?_⟩
  · intro env e h
    rw [pollOnce_queryErr env e h]
  · intro v th c e
    exact ⟨rfl, rfl, rfl, rfl⟩

/-- Witness for `pollOnce_query_failure_spec`: a cycle whose temperature
query times out. -/
theorem pollOnce_query_failure_spec_witness :
    (pollOnce ⟨⟨"", some "signal: killed"⟩, ⟨"volt=0.8625V", none⟩, ⟨"", none⟩,
        ⟨"", none⟩, 9, 4⟩).1 =
      { Timestamp := 9, Source := "vcgencmd",
        RawTemp := rawTempOf ⟨⟨"", some "signal: killed"⟩, ⟨"volt=0.8625V", none⟩, ⟨"", none⟩,
          ⟨"", none⟩, 9, 4⟩,
        RawVolts := rawVoltsOf ⟨⟨"", some "signal: killed"⟩, ⟨"volt=0.8625V", none⟩, ⟨"", none⟩,
          ⟨"", none⟩, 9, 4⟩,
        RawThrottle := rawThrottleOf ⟨⟨"", some "signal: killed"⟩, ⟨"volt=0.8625V", none⟩,
          ⟨"", none⟩, ⟨"", none⟩, 9, 4⟩,
        RawClock := rawClockOf ⟨⟨"", some "signal: killed"⟩, ⟨"volt=0.8625V", none⟩, ⟨"", none⟩,
          ⟨"", none⟩, 9, 4⟩,
        LastPollLatency := some 4,
        LastError := "exec failed: vcgencmd measure_temp: signal: killed; output: \"\"",
        LastErrorAt := 9 } :=
  pollOnce_query_failure_spec.1
    ⟨⟨"", some "signal: killed"⟩, ⟨"volt=0.8625V", none⟩, ⟨"", none⟩, ⟨"", none⟩, 9, 4⟩
    "exec failed: vcgencmd measure_temp: signal: killed; output: \"\"" (by decide)

/-- Claim C6 (confirmed): when all four queries succeed, the raw outputs are
parsed in the fixed order temperature, voltage, clock, throttle; the first
parse failure short-circuits the cycle, and the resulting Reading carries
that failure's error and only that measurement's raw field (all other fields
of the record equality are the Go zero values). -/
theorem pollOnce_parse_short_circuit (env : PollEnv) (hq : queriesOk env) :
    (∀ e, parseTemp (rawTempOf env) = Except.error e →
        (pollOnce env).1 =
          { RawTemp := rawTempOf env, LastError := e, LastErrorAt := env.now }) ∧
    (∀ t e, parseTemp (rawTempOf env) = Except.ok t →
        parseVolts (rawVoltsOf env) = Except.error e →
        (pollOnce env).1 =
          { RawVolts := rawVoltsOf env, LastError := e, LastErrorAt := env.now }) ∧
    (∀ t v e, parseTemp (rawTempOf env) = Except.ok t →
        parseVolts (rawVoltsOf env) = Except.ok v →
        parseClock (rawClockOf env) = Except.error e →
        (pollOnce env).1 =
          { RawClock := rawClockOf env, LastError := e, LastErrorAt := env.now }) ∧
    (∀ t v c e, parseTemp (rawTempOf env) = Except.ok t →
        parseVolts (rawVoltsOf env) = Except.ok v →
        parseClock (rawClockOf env) = Except.ok c →
        (parseThrottleBits (rawThrottleOf env)).2.2.2.2 = some e →
        (pollOnce env).1 =
          { RawThrottle := rawThrottleOf env, LastError := e, LastErrorAt := env.now }) := by
  have hq0 : firstQueryErrOf env = none := (firstQueryErrOf_none_iff env).mpr hq
  refine ⟨?_, ?_, ?_, ?_⟩
  · intro e ht
    rw [pollOnce_parseTemp_err env e hq0 ht]
  · intro t e ht hv
    rw [pollOnce_parseVolts_err env t e hq0 ht hv]
  · intro t v e ht hv hc
    rw [pollOnce_parseClock_err env t v e hq0 ht hv hc]
  · intro t v c e ht hv hc hth
    rw [pollOnce_parseThrottle_err env t v c e hq0 ht hv hc hth]

/-- Witness for `pollOnce_parse_short_circuit`: all queries succeed but the
voltage output is malformed. -/
theorem pollOnce_parse_short_circuit_witness :
    (pollOnce ⟨⟨"temp=53.2'C", none⟩, ⟨"garbled", none⟩, ⟨"throttled=0x0", none⟩,
        ⟨"frequency(48)=1500398464", none⟩, 11, 2⟩).1 =
      { RawVolts := rawVoltsOf ⟨⟨"temp=53.2'C", none⟩, ⟨"garbled", none⟩, ⟨"throttled=0x0", none⟩,
          ⟨"frequency(48)=1500398464", none⟩, 11, 2⟩,
        LastError :=
          "parseVolts: out=\"garbled\" stripped=\"garbled\": strconv.ParseFloat: parsing \"garbled\": invalid syntax",
        LastErrorAt := 11 } :=
  (pollOnce_parse_short_circuit
      ⟨⟨"temp=53.2'C", none⟩, ⟨"garbled", none⟩, ⟨"throttled=0x0", none⟩,
        ⟨"frequency(48)=1500398464", none⟩, 11, 2⟩ (by decide)).2.1
    (266 / 5)
    "parseVolts: out=\"garbled\" stripped=\"garbled\": strconv.ParseFloat: parsing \"garbled\": invalid syntax"
    (by decide) (by decide)

/-- Claim C7 (confirmed): after every sequence of poll cycles the cache slot
holds exactly the Reading produced by the most recent cycle (`main` calls
`c.Set(s)` unconditionally), so after any number of failing cycles the cached
`LastError` is the most recent cycle's failure. -/
theorem cache_always_latest (init : State) (envs : List PollEnv) (h : envs ≠ []) :
    cacheAfter init envs = (pollOnce (envs.getLast h)).1 ∧
    (∀ e, (pollOnce (envs.getLast h)).2 = some e →
        (cacheAfter init envs).LastError = e) := by
  have hmain := cacheAfter_eq_last envs init h
  refine ⟨hmain, fun e he => ?_⟩
  rw [hmain]
  exact (pollOnce_master (envs.getLast h)).2.2 e he

/-- Witness for `cache_always_latest`: two consecutive cycles with distinct
query failures; the cache ends with the second cycle's error, not the
first's. -/
theorem cache_always_latest_witness :
    (cacheAfter {} [⟨⟨"", some "context deadline exceeded"⟩, ⟨"", none⟩, ⟨"", none⟩,
          ⟨"", none⟩, 1, 1⟩,
        ⟨⟨"", some "exit status 1"⟩, ⟨"", none⟩, ⟨"", none⟩, ⟨"", none⟩, 2, 1⟩]).LastError =
      "exec failed: vcgencmd measure_temp: exit status 1; output: \"\"" :=
  (cache_always_latest {} [⟨⟨"", some "context deadline exceeded"⟩, ⟨"", none⟩, ⟨"", none⟩,
        ⟨"", none⟩, 1, 1⟩,
      ⟨⟨"", some "exit status 1"⟩, ⟨"", none⟩, ⟨"", none⟩, ⟨"", none⟩, 2, 1⟩] (by decide)).2
    "exec failed: vcgencmd measure_temp: exit status 1; output: \"\"" (by decide)

/-- Claim C8 counterexample: a cycle in which every query succeeds and the
captured temperature output is non-empty, but voltage parsing fails: the
produced Reading is a failure (`LastError` non-empty) whose `RawTemp` field is
empty even though the temperature output was captured — refuting "the raw
debug string for each sub-measurement whose output was captured is present".
-/
theorem raw_on_parse_failure_counterexample :
    (pollOnce ⟨⟨"temp=42.0'C", none⟩, ⟨"bogus", none⟩, ⟨"throttled=0x0", none⟩,
        ⟨"frequency(48)=1500000000", none⟩, 5, 3⟩).1.LastError ≠ "" ∧
    rawTempOf ⟨⟨"temp=42.0'C", none⟩, ⟨"bogus", none⟩, ⟨"throttled=0x0", none⟩,
        ⟨"frequency(48)=1500000000", none⟩, 5, 3⟩ ≠ "" ∧
    (pollOnce ⟨⟨"temp=42.0'C", none⟩, ⟨"bogus", none⟩, ⟨"throttled=0x0", none⟩,
        ⟨"frequency(48)=1500000000", none⟩, 5, 3⟩).1.RawTemp = "" := by
  refine ⟨?_, ?_, ?_⟩ <;> decide

/-- Claim C8 (amended): on a query-stage failure all four raw strings are
present as captured; on a parse-stage failure only the failing measurement's
raw string is retained (the raw strings of the other measurements are dropped
even though their output was captured). -/
theorem raw_fields_on_failure :
    (∀ (env : PollEnv) (e : String), firstQueryErrOf env = some e →
        (pollOnce env).1.RawTemp = rawTempOf env ∧
        (pollOnce env).1.RawVolts = rawVoltsOf env ∧
        (pollOnce env).1.RawThrottle = rawThrottleOf env ∧
        (pollOnce env).1.RawClock = rawClockOf env) ∧
    (∀ (env : PollEnv) (e : String), queriesOk env → (pollOnce env).2 = some e →
        ((pollOnce env).1.RawTemp = rawTempOf env ∧ (pollOnce env).1.RawVolts = "" ∧
          (pollOnce env).1.RawThrottle = "" ∧ (pollOnce env).1.RawClock = "") ∨
        ((pollOnce env).1.RawTemp = "" ∧ (pollOnce env).1.RawVolts = rawVoltsOf env ∧
          (pollOnce env).1.RawThrottle = "" ∧ (pollOnce env).1.RawClock = "") ∨
        ((pollOnce env).1.RawTemp = "" ∧ (pollOnce env).1.RawVolts = "" ∧
          (pollOnce env).1.RawThrottle = "" ∧ (pollOnce env).1.RawClock = rawClockOf env) ∨
        ((pollOnce env).1.RawTemp = "" ∧ (pollOnce env).1.RawVolts = "" ∧
          (pollOnce env).1.RawThrottle = rawThrottleOf env ∧ (pollOnce env).1.RawClock = "")) := by
  constructor
  · intro env e h
    rw [pollOnce_queryErr env e h]
    exact ⟨rfl, rfl, rfl, rfl⟩
  · intro env e hq h
    rcases pollOnce_parse_failure_cases env e hq h with hp | hp | hp | hp <;> rw [hp]
    · exact Or.inl ⟨rfl, rfl, rfl, rfl⟩
    · exact Or.inr (Or.inl ⟨rfl, rfl, rfl, rfl⟩)
    · exact Or.inr (Or.inr (Or.inl ⟨rfl, rfl, rfl, rfl⟩))
    · exact Or.inr (Or.inr (Or.inr ⟨rfl, rfl, rfl, rfl⟩))

/-- Witness for `raw_fields_on_failure`: a cycle whose clock output is
malformed. -/
theorem raw_fields_on_failure_witness :
    ((pollOnce ⟨⟨"temp=40.1'C", none⟩, ⟨"volt=0.9V", none⟩, ⟨"throttled=0x0", none⟩,
          ⟨"nonsense", none⟩, 3, 2⟩).1.RawTemp =
        rawTempOf ⟨⟨"temp=40.1'C", none⟩, ⟨"volt=0.9V", none⟩, ⟨"throttled=0x0", none⟩,
          ⟨"nonsense", none⟩, 3, 2⟩ ∧
      (pollOnce ⟨⟨"temp=40.1'C", none⟩, ⟨"volt=0.9V", none⟩, ⟨"throttled=0x0", none⟩,
          ⟨"nonsense", none⟩, 3, 2⟩).1.RawVolts = "" ∧
      (pollOnce ⟨⟨"temp=40.1'C", none⟩, ⟨"volt=0.9V", none⟩, ⟨"throttled=0x0", none⟩,
          ⟨"nonsense", none⟩, 3, 2⟩).1.RawThrottle = "" ∧
      (pollOnce ⟨⟨"temp=40.1'C", none⟩, ⟨"volt=0.9V", none⟩, ⟨"throttled=0x0", none⟩,
          ⟨"nonsense", none⟩, 3, 2⟩).1.RawClock = "") ∨
    ((pollOnce ⟨⟨"temp=40.1'C", none⟩, ⟨"volt=0.9V", none⟩, ⟨"throttled=0x0", none⟩,
          ⟨"nonsense", none⟩, 3, 2⟩).1.RawTemp = "" ∧
      (pollOnce ⟨⟨"temp=40.1'C", none⟩, ⟨"volt=0.9V", none⟩, ⟨"throttled=0x0", none⟩,
          ⟨"nonsense", none⟩, 3, 2⟩).1.RawVolts =
        rawVoltsOf ⟨⟨"temp=40.1'C", none⟩, ⟨"volt=0.9V", none⟩, ⟨"throttled=0x0", none⟩,
          ⟨"nonsense", none⟩, 3, 2⟩ ∧
      (pollOnce ⟨⟨"temp=40.1'C", none⟩, ⟨"volt=0.9V", none⟩, ⟨"throttled=0x0", none⟩,
          ⟨"nonsense", none⟩, 3, 2⟩).1.RawThrottle = "" ∧
      (pollOnce ⟨⟨"temp=40.1'C", none⟩, ⟨"volt=0.9V", none⟩, ⟨"throttled=0x0", none⟩,
          ⟨"nonsense", none⟩, 3, 2⟩).1.RawClock = "") ∨
    ((pollOnce ⟨⟨"temp=40.1'C", none⟩, ⟨"volt=0.9V", none⟩, ⟨"throttled=0x0", none⟩,
          ⟨"nonsense", none⟩, 3, 2⟩).1.RawTemp = "" ∧
      (pollOnce ⟨⟨"temp=40.1'C", none⟩, ⟨"volt=0.9V", none⟩, ⟨"throttled=0x0", none⟩,
          ⟨"nonsense", none⟩, 3, 2⟩).1.RawVolts = "" ∧
      (pollOnce ⟨⟨"temp=40.1'C", none⟩, ⟨"volt=0.9V", none⟩, ⟨"throttled=0x0", none⟩,
          ⟨"nonsense", none⟩, 3, 2⟩).1.RawThrottle = "" ∧
      (pollOnce ⟨⟨"temp=40.1'C", none⟩, ⟨"volt=0.9V", none⟩, ⟨"throttled=0x0", none⟩,
          ⟨"nonsense", none⟩, 3, 2⟩).1.RawClock =
        rawClockOf ⟨⟨"temp=40.1'C", none⟩, ⟨"volt=0.9V", none⟩, ⟨"throttled=0x0", none⟩,
          ⟨"nonsense", none⟩, 3, 2⟩) ∨
    ((pollOnce ⟨⟨"temp=40.1'C", none⟩, ⟨"volt=0.9V", none⟩, ⟨"throttled=0x0", none⟩,
          ⟨"nonsense", none⟩, 3, 2⟩).1.RawTemp = "" ∧
      (pollOnce ⟨⟨"temp=40.1'C", none⟩, ⟨"volt=0.9V", none⟩, ⟨"throttled=0x0", none⟩,
          ⟨"nonsense", none⟩, 3, 2⟩).1.RawVolts = "" ∧
      (pollOnce ⟨⟨"temp=40.1'C", none⟩, ⟨"volt=0.9V", none⟩, ⟨"throttled=0x0", none⟩,
          ⟨"nonsense", none⟩, 3, 2⟩).1.RawThrottle =
        rawThrottleOf ⟨⟨"temp=40.1'C", none⟩, ⟨"volt=0.9V", none⟩, ⟨"throttled=0x0", none⟩,
          ⟨"nonsense", none⟩, 3, 2⟩ ∧
      (pollOnce ⟨⟨"temp=40.1'C", none⟩, ⟨"volt=0.9V", none⟩, ⟨"throttled=0x0", none⟩,
          ⟨"nonsense", none⟩, 3, 2⟩).1.RawClock = "") :=
  raw_fields_on_failure.2
    ⟨⟨"temp=40.1'C", none⟩, ⟨"volt=0.9V", none⟩, ⟨"throttled=0x0", none⟩, ⟨"nonsense", none⟩, 3, 2⟩
    "parseClock: unexpected format \"nonsense\"" (by decide) (by decide)

/-- Claim C10 (confirmed): a Reading from a parse-stage failure has
zero-valued `Timestamp`, empty `Source`, empty `LastPollLatency`, and is
exactly one of the four per-measurement failure records (each retaining only
the failing measurement's raw string); a Reading from a query-stage failure
instead carries `Timestamp`, `Source`, `LastPollLatency`, and all four raw
strings. -/
theorem parse_vs_query_failure_shape (env : PollEnv) :
    (∀ e, queriesOk env → (pollOnce env).2 = some e →
        (pollOnce env).1.Timestamp = 0 ∧ (pollOnce env).1.Source = "" ∧
        (pollOnce env).1.LastPollLatency = none ∧
        ((pollOnce env).1 =
            { RawTemp := rawTempOf env, LastError := e, LastErrorAt := env.now } ∨
          (pollOnce env).1 =
            { RawVolts := rawVoltsOf env, LastError := e, LastErrorAt := env.now } ∨
          (pollOnce env).1 =
            { RawClock := rawClockOf env, LastError := e, LastErrorAt := env.now } ∨
          (pollOnce env).1 =
            { RawThrottle := rawThrottleOf env, LastError := e, LastErrorAt := env.now })) ∧
    (∀ e, firstQueryErrOf env = some e →
        (pollOnce env).1.Timestamp = env.now ∧ (pollOnce env).1.Source = "vcgencmd" ∧
        (pollOnce env).1.LastPollLatency = some env.elapsed ∧
        (pollOnce env).1.RawTemp = rawTempOf env ∧
        (pollOnce env).1.RawVolts = rawVoltsOf env ∧
        (pollOnce env).1.RawThrottle = rawThrottleOf env ∧
        (pollOnce env).1.RawClock = rawClockOf env) := by
  constructor
  · intro e hq h
    rcases pollOnce_parse_failure_cases env e hq h with hp | hp | hp | hp <;> rw [hp]
    · exact ⟨rfl, rfl, rfl, Or.inl rfl⟩
    · exact ⟨rfl, rfl, rfl, Or.inr (Or.inl rfl)⟩
    · exact ⟨rfl, rfl, rfl, Or.inr (Or.inr (Or.inl rfl))⟩
    · exact ⟨rfl, rfl, rfl, Or.inr (Or.inr (Or.inr rfl))⟩
  · intro e h
    rw [pollOnce_queryErr env e h]
    exact ⟨rfl, rfl, rfl, rfl, rfl, rfl, rfl⟩

/-- Witness for `parse_vs_query_failure_shape`: the zero-valued header fields
of a parse-stage failure Reading (malformed throttle bitmask). -/
theorem parse_vs_query_failure_shape_witness :
    (pollOnce ⟨⟨"temp=40.1'C", none⟩, ⟨"volt=0.9V", none⟩, ⟨"throttled=0xZZ", none⟩,
        ⟨"frequency(48)=1500398464", none⟩, 6, 2⟩).1.Timestamp = 0 ∧
    (pollOnce ⟨⟨"temp=40.1'C", none⟩, ⟨"volt=0.9V", none⟩, ⟨"throttled=0xZZ", none⟩,
        ⟨"frequency(48)=1500398464", none⟩, 6, 2⟩).1.Source = "" ∧
    (pollOnce ⟨⟨"temp=40.1'C", none⟩, ⟨"volt=0.9V", none⟩, ⟨"throttled=0xZZ", none⟩,
        ⟨"frequency(48)=1500398464", none⟩, 6, 2⟩).1.LastPollLatency = none ∧
    ((pollOnce ⟨⟨"temp=40.1'C", none⟩, ⟨"volt=0.9V", none⟩, ⟨"throttled=0xZZ", none⟩,
          ⟨"frequency(48)=1500398464", none⟩, 6, 2⟩).1 =
        { RawTemp := rawTempOf ⟨⟨"temp=40.1'C", none⟩, ⟨"volt=0.9V", none⟩,
            ⟨"throttled=0xZZ", none⟩, ⟨"frequency(48)=1500398464", none⟩, 6, 2⟩,
          LastError := "parseThrottleBits: \"throttled=0xZZ\": strconv.ParseUint: parsing \"ZZ\": invalid syntax",
          LastErrorAt := 6 } ∨
      (pollOnce ⟨⟨"temp=40.1'C", none⟩, ⟨"volt=0.9V", none⟩, ⟨"throttled=0xZZ", none⟩,
          ⟨"frequency(48)=1500398464", none⟩, 6, 2⟩).1 =
        { RawVolts := rawVoltsOf ⟨⟨"temp=40.1'C", none⟩, ⟨"volt=0.9V", none⟩,
            ⟨"throttled=0xZZ", none⟩, ⟨"frequency(48)=1500398464", none⟩, 6, 2⟩,
          LastError := "parseThrottleBits: \"throttled=0xZZ\": strconv.ParseUint: parsing \"ZZ\": invalid syntax",
          LastErrorAt := 6 } ∨
      (pollOnce ⟨⟨"temp=40.1'C", none⟩, ⟨"volt=0.9V", none⟩, ⟨"throttled=0xZZ", none⟩,
          ⟨"frequency(48)=1500398464", none⟩, 6, 2⟩).1 =
        { RawClock := rawClockOf ⟨⟨"temp=40.1'C", none⟩, ⟨"volt=0.9V", none⟩,
            ⟨"throttled=0xZZ", none⟩, ⟨"frequency(48)=1500398464", none⟩, 6, 2⟩,
          LastError := "parseThrottleBits: \"throttled=0xZZ\": strconv.ParseUint: parsing \"ZZ\": invalid syntax",
          LastErrorAt := 6 } ∨
      (pollOnce ⟨⟨"temp=40.1'C", none⟩, ⟨"volt=0.9V", none⟩, ⟨"throttled=0xZZ", none⟩,
          ⟨"frequency(48)=1500398464", none⟩, 6, 2⟩).1 =
        { RawThrottle := rawThrottleOf ⟨⟨"temp=40.1'C", none⟩, ⟨"volt=0.9V", none⟩,
            ⟨"throttled=0xZZ", none⟩, ⟨"frequency(48)=1500398464", none⟩, 6, 2⟩,
          LastError := "parseThrottleBits: \"throttled=0xZZ\": strconv.ParseUint: parsing \"ZZ\": invalid syntax",
          LastErrorAt := 6 }) :=
  (parse_vs_query_failure_shape
      ⟨⟨"temp=40.1'C", none⟩, ⟨"volt=0.9V", none⟩, ⟨"throttled=0xZZ", none⟩,
        ⟨"frequency(48)=1500398464", none⟩, 6, 2⟩).1
    "parseThrottleBits: \"throttled=0xZZ\": strconv.ParseUint: parsing \"ZZ\": invalid syntax"
    (by decide) (by decide)
